import Mathlib

/-!
Verification of the stack-walking core of `ddtrace/profiling/collector/_traceback.pyx`.

The data model follows the Python runtime objects the code reads:
a code object carries `co_filename` and `co_name`; a frame carries its code
object and an optional current line number (`f_lineno`, `None` when unknown);
a traceback node carries its frame (`tb_frame`).  The singly-linked chains
(`tb_next` / `f_back`) are embedded as Lean lists: the empty list is the null
head, and the list order is the walk order of the Python loops.
-/

structure FCode where
  co_filename : String
  co_name : String
  deriving DecidableEq

structure PyFrame where
  f_code : FCode
  f_lineno : Option Nat
  deriving DecidableEq

structure Traceback where
  tb_frame : PyFrame
  deriving DecidableEq

/-- The `(co_filename, lineno, co_name)` triple both walkers build for a frame,
with `f_lineno = None` normalised to `0` (`0 if frame.f_lineno is None else
frame.f_lineno`). -/
def frameDescriptor (frame : PyFrame) : String × Nat × String :=
  (frame.f_code.co_filename,
   (match frame.f_lineno with
    | none => 0
    | some l => l),
   frame.f_code.co_name)

/-- Loop body of `traceback_to_frames`: walks the `tb_next` chain carrying the
accumulated `frames` list and the visited-node counter `nframes`; a descriptor
is inserted at the front while `nframes < max_nframes`. -/
def traceback_to_frames_loop (max_nframes : Int) :
    List Traceback → List (String × Nat × String) → Nat →
      List (String × Nat × String) × Nat
  | [], frames, nframes => (frames, nframes)
  | tb :: rest, frames, nframes =>
    let frames1 :=
      if (nframes : Int) < max_nframes then
        let frame := tb.tb_frame
        let code := frame.f_code
        let lineno : Nat :=
          match frame.f_lineno with
          | none => 0
          | some l => l
        (code.co_filename, lineno, code.co_name) :: frames
      else frames
    traceback_to_frames_loop max_nframes rest frames1 (nframes + 1)

/-- `traceback_to_frames(traceback, max_nframes)`: serialize a traceback chain
into a list of `(filename, lineno, function_name)` tuples plus the number of
frames present in the original traceback. -/
def traceback_to_frames (traceback : List Traceback) (max_nframes : Int) :
    List (String × Nat × String) × Nat :=
  traceback_to_frames_loop max_nframes traceback [] 0

/-- Loop body of `pyframe_to_frames`: walks the `f_back` chain; `nframes` is
incremented for every node, and a descriptor is appended while
`len(frames) < max_nframes`. -/
def pyframe_to_frames_loop (max_nframes : Int) :
    List PyFrame → List (String × Nat × String) → Nat →
      List (String × Nat × String) × Nat
  | [], frames, nframes => (frames, nframes)
  | frame :: rest, frames, nframes =>
    let nframes1 := nframes + 1
    let frames1 :=
      if (frames.length : Int) < max_nframes then
        let code := frame.f_code
        let lineno : Nat :=
          match frame.f_lineno with
          | none => 0
          | some l => l
        frames ++ [(code.co_filename, lineno, code.co_name)]
      else frames
    pyframe_to_frames_loop max_nframes rest frames1 nframes1

/-- `pyframe_to_frames(frame, max_nframes)`: serialize a live frame chain into
a list of `(filename, lineno, function_name)` tuples plus the number of frames
present in the chain. -/
def pyframe_to_frames (frame : List PyFrame) (max_nframes : Int) :
    List (String × Nat × String) × Nat :=
  pyframe_to_frames_loop max_nframes frame [] 0

/-- Descriptor of a traceback node, read through its `tb_frame`. -/
def tbDescriptor (t : Traceback) : String × Nat × String :=
  frameDescriptor t.tb_frame

lemma traceback_loop_snd (m : Int) (tb : List Traceback)
    (frames : List (String × Nat × String)) (n : Nat) :
    (traceback_to_frames_loop m tb frames n).2 = n + tb.length := by
  induction tb generalizing frames n with
  | nil => simp [traceback_to_frames_loop]
  | cons t rest ih =>
    simp only [traceback_to_frames_loop, ih, List.length_cons]
    omega

lemma traceback_loop_fst (m : Int) (tb : List Traceback)
    (frames : List (String × Nat × String)) (n : Nat) :
    (traceback_to_frames_loop m tb frames n).1 =
      ((tb.take (m - n).toNat).map tbDescriptor).reverse ++ frames := by
  induction tb generalizing frames n with
  | nil => simp [traceback_to_frames_loop]
  | cons t rest ih =>
    by_cases h : (n : Int) < m
    · have hk : (m - n).toNat = (m - (n + 1)).toNat + 1 := by omega
      simp only [traceback_to_frames_loop, if_pos h, ih, hk, List.take_succ_cons,
        List.map_cons, List.reverse_cons, List.append_assoc, List.singleton_append]
      rfl
    · have hk : (m - n).toNat = 0 := by omega
      have hk1 : (m - (n + 1 : Nat)).toNat = 0 := by omega
      simp only [traceback_to_frames_loop, if_neg h, ih, hk, hk1, List.take_zero,
        List.map_nil, List.reverse_nil, List.nil_append]

lemma traceback_to_frames_eq (tb : List Traceback) (m : Int) :
    traceback_to_frames tb m =
      (((tb.take m.toNat).map tbDescriptor).reverse, tb.length) := by
  have h1 := traceback_loop_fst m tb [] 0
  have h2 := traceback_loop_snd m tb [] 0
  simp only [Nat.cast_zero, Int.sub_zero, List.append_nil, Nat.zero_add] at h1 h2
  exact Prod.ext h1 h2

lemma pyframe_loop_snd (m : Int) (ch : List PyFrame)
    (frames : List (String × Nat × String)) (n : Nat) :
    (pyframe_to_frames_loop m ch frames n).2 = n + ch.length := by
  induction ch generalizing frames n with
  | nil => simp [pyframe_to_frames_loop]
  | cons f rest ih =>
    simp only [pyframe_to_frames_loop, ih, List.length_cons]
    omega

lemma pyframe_loop_fst (m : Int) (ch : List PyFrame)
    (frames : List (String × Nat × String)) (n : Nat) :
    (pyframe_to_frames_loop m ch frames n).1 =
      frames ++ (ch.take (m - frames.length).toNat).map frameDescriptor := by
  induction ch generalizing frames n with
  | nil => simp [pyframe_to_frames_loop]
  | cons f rest ih =>
    by_cases h : (frames.length : Int) < m
    · have hk : (m - frames.length).toNat = (m - (frames.length + 1)).toNat + 1 := by
        omega
      simp only [pyframe_to_frames_loop, if_pos h, ih, List.length_append,
        List.length_cons, List.length_nil, Nat.zero_add, Nat.cast_add, Nat.cast_one,
        hk, List.take_succ_cons, List.map_cons, List.append_assoc,
        List.singleton_append]
      rfl
    · have hk : (m - frames.length).toNat = 0 := by omega
      simp only [pyframe_to_frames_loop, if_neg h, ih, hk, List.take_zero,
        List.map_nil, List.append_nil]

lemma pyframe_to_frames_eq (ch : List PyFrame) (m : Int) :
    pyframe_to_frames ch m = ((ch.take m.toNat).map frameDescriptor, ch.length) := by
  have h1 := pyframe_loop_fst m ch [] 0
  have h2 := pyframe_loop_snd m ch [] 0
  simp only [List.length_nil, Nat.cast_zero, Int.sub_zero, List.nil_append,
    Nat.zero_add] at h1 h2
  exact Prod.ext h1 h2

/-! Concrete chains used by counterexamples and witnesses. -/

/-- A traceback node whose descriptor is `("t.py", i, "f")`. -/
def tbNode (i : Nat) : Traceback :=
  ⟨⟨⟨"t.py", "f"⟩, some i⟩⟩

/-- Five-node traceback chain, nodes visited in order `tbNode 1 … tbNode 5`. -/
def exChain5 : List Traceback :=
  [tbNode 1, tbNode 2, tbNode 3, tbNode 4, tbNode 5]

/-- Traceback node X of the spec example, descriptor `("t.py", 1, "f")`. -/
def exX : Traceback := tbNode 1

/-- Traceback node Y of the spec example, descriptor `("t.py", 2, "f")`. -/
def exY : Traceback := tbNode 2

/-- Traceback node Z of the spec example, descriptor `("t.py", 3, "f")`. -/
def exZ : Traceback := tbNode 3

/-- A frame with the given file, line and function name. -/
def mkFrame (file : String) (line : Nat) (fn : String) : PyFrame :=
  ⟨⟨file, fn⟩, some line⟩

/-- A frame whose `f_lineno` is absent (`None`). -/
def exNoLine : PyFrame :=
  ⟨⟨"n.py", "g"⟩, none⟩

/-- Claim C1 counterexample: on the 5-node chain with `max_nframes = 3` the
claim says the retained descriptors are those of the 3rd, 4th and 5th visited
nodes in that order; the code returns something else. -/
theorem c1_tail_biased_counterexample :
    (traceback_to_frames exChain5 3).1 ≠
      [tbDescriptor (tbNode 3), tbDescriptor (tbNode 4), tbDescriptor (tbNode 5)] := by
  decide

/-- Claim C1 (amended): `traceback_to_frames` truncation is head-biased.  For
every traceback chain with more nodes than `max_nframes ≥ 0`, the retained
descriptors are exactly those of the first `max_nframes` nodes visited in the
walk (the head end of the chain), the output lists them in reverse visit order
(most recently visited kept node first), and the latest-visited nodes are the
ones dropped. -/
theorem c1_traceback_truncation_head_biased (tbs : List Traceback) (m : Int)
    (_h0 : 0 ≤ m) (h1 : m.toNat < tbs.length) :
    ((traceback_to_frames tbs m).1).reverse = (tbs.take m.toNat).map tbDescriptor ∧
    (traceback_to_frames tbs m).1.length = m.toNat := by
  constructor
  · simp [traceback_to_frames_eq]
  · simp only [traceback_to_frames_eq, List.length_reverse, List.length_map,
      List.length_take]
    omega

/-- Claim C1 witness: the amended statement evaluated on the 5-node chain with
`max_nframes = 3`. -/
theorem c1_traceback_truncation_head_biased_witness :
    (0 ≤ (3 : Int) ∧ (3 : Int).toNat < exChain5.length) ∧
    ((traceback_to_frames exChain5 3).1).reverse =
      (exChain5.take (3 : Int).toNat).map tbDescriptor ∧
    (traceback_to_frames exChain5 3).1.length = (3 : Int).toNat :=
  ⟨⟨by decide, by decide⟩,
   c1_traceback_truncation_head_biased exChain5 3 (by decide) (by decide)⟩

/-- Claim C2 counterexample: for the chain visited in order X, Y, Z with
`max_nframes = 2` the claim says the result is `([descriptor(Y),
descriptor(Z)], 3)`; the code returns a different value. -/
theorem c2_example_counterexample :
    traceback_to_frames [exX, exY, exZ] 2 ≠ ([tbDescriptor exY, tbDescriptor exZ], 3) := by
  decide

/-- Claim C2 (amended): for every traceback chain of 3 nodes visited in order
X, Y, Z with `max_nframes = 2`, `traceback_to_frames` returns the pair whose
frames list is `[descriptor(Y), descriptor(X)]` (the first two visited nodes,
front-inserted) and whose total count is 3. -/
theorem c2_three_node_chain_cap_two (X Y Z : Traceback) :
    traceback_to_frames [X, Y, Z] 2 = ([tbDescriptor Y, tbDescriptor X], 3) := by
  simp [traceback_to_frames_eq, List.take]

/-- Claim C3: for every chain (traceback or frame) and every `max_nframes ≥ 0`,
the frames list has length `min(total_frame_count, max_nframes)`; in particular
`max_nframes = 0` gives an empty frames list while the total count is still the
full chain length. -/
theorem c3_frames_length_min (tbs : List Traceback) (ch : List PyFrame) (m : Int)
    (h : 0 ≤ m) :
    (traceback_to_frames tbs m).1.length =
      min (traceback_to_frames tbs m).2 m.toNat ∧
    (pyframe_to_frames ch m).1.length = min (pyframe_to_frames ch m).2 m.toNat ∧
    (m = 0 →
      (traceback_to_frames tbs m).1 = [] ∧ (pyframe_to_frames ch m).1 = [] ∧
      (traceback_to_frames tbs m).2 = tbs.length ∧
      (pyframe_to_frames ch m).2 = ch.length) := by
  refine ⟨?_, ?_, ?_⟩
  · simp only [traceback_to_frames_eq, List.length_reverse, List.length_map,
      List.length_take]
    omega
  · simp only [pyframe_to_frames_eq, List.length_map, List.length_take]
    omega
  · intro hm
    subst hm
    simp [traceback_to_frames_eq, pyframe_to_frames_eq]

/-- Claim C3 witness: the statement evaluated on concrete chains with
`max_nframes = 0`. -/
theorem c3_frames_length_min_witness :
    0 ≤ (0 : Int) ∧
    ((traceback_to_frames exChain5 0).1.length =
       min (traceback_to_frames exChain5 0).2 (0 : Int).toNat ∧
     (pyframe_to_frames [exNoLine] 0).1.length =
       min (pyframe_to_frames [exNoLine] 0).2 (0 : Int).toNat ∧
     ((0 : Int) = 0 →
       (traceback_to_frames exChain5 0).1 = [] ∧
       (pyframe_to_frames [exNoLine] 0).1 = [] ∧
       (traceback_to_frames exChain5 0).2 = exChain5.length ∧
       (pyframe_to_frames [exNoLine] 0).2 = ([exNoLine] : List PyFrame).length)) :=
  ⟨by decide, c3_frames_length_min exChain5 [exNoLine] 0 (by decide)⟩

/-- Claim C4: for every chain and every `max_nframes` (regardless of its
value), the total count returned by each walker equals the true number of
nodes in the input chain. -/
theorem c4_total_count_exact (tbs : List Traceback) (ch : List PyFrame)
    (m m2 : Int) :
    (traceback_to_frames tbs m).2 = tbs.length ∧
    (pyframe_to_frames ch m2).2 = ch.length := by
  simp [traceback_to_frames_eq, pyframe_to_frames_eq]

/-- Claim C5: `pyframe_to_frames` keeps walk order: `frames[i]` is the
descriptor of the i-th node of the chain (innermost first) for every
`i < len(frames)`, the first `max_nframes` nodes encountered are kept while
deeper callers are only counted, and on the 2-node chain `A("a.py", 10, "foo")
→ B("a.py", 2, "bar")` with `max_nframes = 1` the result is
`([("a.py", 10, "foo")], 2)`. -/
theorem c5_frame_walker_order :
    (∀ (ch : List PyFrame) (m : Int) (i : Nat),
        i < ((pyframe_to_frames ch m).1).length →
        ((pyframe_to_frames ch m).1)[i]? = (ch[i]?).map frameDescriptor) ∧
    pyframe_to_frames [mkFrame "a.py" 10 "foo", mkFrame "a.py" 2 "bar"] 1 =
      ([("a.py", 10, "foo")], 2) := by
  constructor
  · intro ch m i hi
    simp only [pyframe_to_frames_eq, List.length_map, List.length_take] at hi ⊢
    rw [List.getElem?_map, List.getElem?_take, if_pos (by omega : i < m.toNat)]
  · decide

/-- Claim C5 witness: the order statement applied at the spec's concrete
2-node chain with `max_nframes = 1`, index 0. -/
theorem c5_frame_walker_order_witness :
    0 < ((pyframe_to_frames [mkFrame "a.py" 10 "foo", mkFrame "a.py" 2 "bar"] 1).1).length ∧
    ((pyframe_to_frames [mkFrame "a.py" 10 "foo", mkFrame "a.py" 2 "bar"] 1).1)[0]? =
      (([mkFrame "a.py" 10 "foo", mkFrame "a.py" 2 "bar"] : List PyFrame)[0]?).map
        frameDescriptor :=
  ⟨by decide,
   c5_frame_walker_order.1 [mkFrame "a.py" 10 "foo", mkFrame "a.py" 2 "bar"] 1 0
     (by decide)⟩

/-- Claim C6 counterexample: on the chain X, Y, Z with `max_nframes = 2` the
claim puts the descriptor of the last-walked node of the chain (Z) first in
the result, but the code's first retained descriptor is Y's. -/
theorem c6_last_walked_first_counterexample :
    ((traceback_to_frames [exX, exY, exZ] 2).1)[0]? ≠ some (tbDescriptor exZ) := by
  decide

/-- Claim C6 (amended): for every traceback chain and every `max_nframes`, the
frames list is the reverse of the order in which its retained nodes (the first
`min(total, max_nframes)` visited) were encountered during the walk; the
last-walked node of the whole chain appears first only when nothing is
truncated, i.e. when the chain length is at most `max_nframes`. -/
theorem c6_reverse_of_retained (tbs : List Traceback) (m : Int) :
    (traceback_to_frames tbs m).1 = ((tbs.take m.toNat).map tbDescriptor).reverse ∧
    (tbs.length ≤ m.toNat →
      (traceback_to_frames tbs m).1 = (tbs.map tbDescriptor).reverse) := by
  refine ⟨by simp [traceback_to_frames_eq], ?_⟩
  intro hle
  simp [traceback_to_frames_eq, List.take_of_length_le hle]

/-- Claim C6 witness: the untruncated case evaluated on the chain X, Y, Z with
`max_nframes = 5`. -/
theorem c6_reverse_of_retained_witness :
    ([exX, exY, exZ] : List Traceback).length ≤ (5 : Int).toNat ∧
    (traceback_to_frames [exX, exY, exZ] 5).1 =
      (([exX, exY, exZ] : List Traceback).map tbDescriptor).reverse :=
  ⟨by decide, (c6_reverse_of_retained [exX, exY, exZ] 5).2 (by decide)⟩

/-- Claim C7: every descriptor materialized by either walker comes from a node
of the input chain; its source path and function name are the node's code
metadata unchanged, its line number is the node's line attribute when present
and `0` when the attribute is null/absent. -/
theorem c7_descriptor_lineno_default (tbs : List Traceback) (ch : List PyFrame)
    (m : Int) :
    (∀ d ∈ (traceback_to_frames tbs m).1, ∃ t ∈ tbs,
       d.1 = t.tb_frame.f_code.co_filename ∧
       d.2.2 = t.tb_frame.f_code.co_name ∧
       (t.tb_frame.f_lineno = none → d.2.1 = 0) ∧
       (∀ l, t.tb_frame.f_lineno = some l → d.2.1 = l)) ∧
    (∀ d ∈ (pyframe_to_frames ch m).1, ∃ f ∈ ch,
       d.1 = f.f_code.co_filename ∧
       d.2.2 = f.f_code.co_name ∧
       (f.f_lineno = none → d.2.1 = 0) ∧
       (∀ l, f.f_lineno = some l → d.2.1 = l)) := by
  constructor
  · intro d hd
    simp only [traceback_to_frames_eq, List.mem_reverse, List.mem_map] at hd
    obtain ⟨t, ht, rfl⟩ := hd
    refine ⟨t, List.mem_of_mem_take ht, rfl, rfl, ?_, ?_⟩
    · intro hnone
      simp [tbDescriptor, frameDescriptor, hnone]
    · intro l hl
      simp [tbDescriptor, frameDescriptor, hl]
  · intro d hd
    simp only [pyframe_to_frames_eq, List.mem_map] at hd
    obtain ⟨f, hf, rfl⟩ := hd
    refine ⟨f, List.mem_of_mem_take hf, rfl, rfl, ?_, ?_⟩
    · intro hnone
      simp [frameDescriptor, hnone]
    · intro l hl
      simp [frameDescriptor, hl]

/-- Claim C7 witness: the pyframe part applied to the descriptor produced for a
frame whose line attribute is absent, checking the `0` substitution input. -/
theorem c7_descriptor_lineno_default_witness :
    (("n.py", 0, "g") : String × Nat × String) ∈ (pyframe_to_frames [exNoLine] 1).1 ∧
    ∃ f ∈ ([exNoLine] : List PyFrame),
      (("n.py", 0, "g") : String × Nat × String).1 = f.f_code.co_filename ∧
      (("n.py", 0, "g") : String × Nat × String).2.2 = f.f_code.co_name ∧
      (f.f_lineno = none → (("n.py", 0, "g") : String × Nat × String).2.1 = 0) ∧
      (∀ l, f.f_lineno = some l → (("n.py", 0, "g") : String × Nat × String).2.1 = l) :=
  ⟨by decide,
   (c7_descriptor_lineno_default [] [exNoLine] 1).2 ("n.py", 0, "g") (by decide)⟩

/-- Claim C8: a null/empty chain head gives `([], 0)` for either walker, for
every `max_nframes`. -/
theorem c8_empty_chain (m : Int) :
    traceback_to_frames [] m = ([], 0) ∧ pyframe_to_frames [] m = ([], 0) :=
  ⟨rfl, rfl⟩

/-- Claim C9: walking the same sequence of nodes in the same order, the two
walkers return frames lists that are exact reverses of each other, both
retaining the descriptors of the first `min(total, max_nframes)` visited
nodes, and identical total counts. -/
theorem c9_walkers_mirror (tbs : List Traceback) (m : Int) :
    (traceback_to_frames tbs m).1 =
      ((pyframe_to_frames (tbs.map Traceback.tb_frame) m).1).reverse ∧
    (pyframe_to_frames (tbs.map Traceback.tb_frame) m).1 =
      ((tbs.map Traceback.tb_frame).take (min tbs.length m.toNat)).map
        frameDescriptor ∧
    (traceback_to_frames tbs m).2 =
      (pyframe_to_frames (tbs.map Traceback.tb_frame) m).2 := by
  refine ⟨?_, ?_, ?_⟩
  · simp only [traceback_to_frames_eq, pyframe_to_frames_eq, List.map_take,
      List.map_map]
    rfl
  · simp only [pyframe_to_frames_eq]
    have hL : (List.take m.toNat (tbs.map Traceback.tb_frame)).length ≤ tbs.length := by
      simp only [List.length_take, List.length_map]
      omega
    rw [← List.take_take, List.take_of_length_le hL]
  · simp [traceback_to_frames_eq, pyframe_to_frames_eq]

/-- Claim C10: for every chain and every negative `max_nframes`, both walkers
return an empty frames list together with the true total node count; the
insertion guard is never satisfied and counting is unaffected. -/
theorem c10_negative_cap (tbs : List Traceback) (ch : List PyFrame) (m : Int)
    (h : m < 0) :
    (traceback_to_frames tbs m).1 = [] ∧
    (traceback_to_frames tbs m).2 = tbs.length ∧
    (pyframe_to_frames ch m).1 = [] ∧
    (pyframe_to_frames ch m).2 = ch.length := by
  have hm : m.toNat = 0 := by omega
  simp [traceback_to_frames_eq, pyframe_to_frames_eq, hm]

/-- Claim C10 witness: both walkers evaluated on concrete chains with
`max_nframes = -1`. -/
theorem c10_negative_cap_witness :
    (-1 : Int) < 0 ∧
    ((traceback_to_frames exChain5 (-1)).1 = [] ∧
     (traceback_to_frames exChain5 (-1)).2 = exChain5.length ∧
     (pyframe_to_frames [exNoLine] (-1)).1 = [] ∧
     (pyframe_to_frames [exNoLine] (-1)).2 = ([exNoLine] : List PyFrame).length) :=
  ⟨by decide, c10_negative_cap exChain5 [exNoLine] (-1) (by decide)⟩
